import Mathlib

/-!
Verification of the iterative generate-execute-critique-repair loop and its
supporting helpers, as implemented in this repository's three variants:
`src/src/graph/` (builder.py, nodes.py, utils/parser.py), `Version1.py` and
`Version2.py`.  Python functions are shallowly embedded as Lean functions;
the external test runner and the external text-generation service appear as
explicit inputs (what the runner wrote at the report path, what the model
answered), so each embedded function is a pure function of the code's actual
decision inputs.  Strings are modelled as `String`/`List Char`; the regex
operations used by the code are implemented as explicit scanners matching the
semantics of the concrete patterns that appear in the source.
-/

/-! ## Loop controller state (GraphState / AgentState, control-relevant fields)

The state dict threaded through the LangGraph workflow; only the fields read
or written by the routing logic and the critic tail are modelled: `iteration`,
`max_iterations`, `status`, `feedback`. -/

structure LoopState where
  iteration : Nat
  maxIterations : Nat
  status : String
  feedback : String
deriving DecidableEq

/-- Tail of `critic_node` in src/src/graph/nodes.py (lines 249-258): the
critic stores the parsed status and feedback into the state and increments
the iteration counter exactly when the status is needs_fix. -/
def criticUpdateSrc (s : LoopState) (verdict feedback : String) : LoopState :=
  if verdict = "needs_fix" then
    { s with status := verdict, feedback := feedback, iteration := s.iteration + 1 }
  else
    { s with status := verdict, feedback := feedback }

/-- `should_continue` from src/src/graph/builder.py (lines 35-57): returns the
route taken after the critic node together with the state as left behind
(the max-iterations branch overwrites `status`). -/
def shouldContinueSrc (s : LoopState) : String × LoopState :=
  if s.status = "success" then (("reporter"), s)
  else if s.iteration > s.maxIterations then
    (("reporter"), { s with status := "max_iterations" })
  else if s.status = "needs_fix" then (("generate"), s)
  else (("reporter"), s)

/-- `should_continue` from Version2.py (lines 373-394); the retry-class
statuses there are `test_error` and `incomplete`, and the max-iterations
branch also overwrites `feedback`. -/
def shouldContinueV2 (s : LoopState) : String × LoopState :=
  if s.status = "success" then (("reporter"), s)
  else if s.status = "source_error" then (("reporter"), s)
  else if s.iteration > s.maxIterations then
    (("reporter"), { s with status := "max_iterations",
                            feedback := "Reached maximum iterations (" ++ toString s.maxIterations ++ ")" })
  else if s.status = "test_error" ∨ s.status = "incomplete" then (("generate"), s)
  else (("reporter"), s)

/-- One generate - combine - execute - critique cycle of the compiled graph of
src/src/graph/builder.py followed by the conditional edge, iterated on the
`generate` route.  The generate/combine/execute nodes do not touch the
control fields, so a cycle is fully determined by the critic's parsed verdict
and feedback, supplied as the stream `verdicts` indexed by completed cycles.
`fuel` bounds the number of unfoldings; `none` means the budget of `fuel`
cycles did not suffice to reach the reporter. -/
def runLoopSrc (verdicts : Nat → String × String) :
    Nat → LoopState → Nat → Option (LoopState × Nat)
  | 0, _, _ => none
  | fuel + 1, s, cycles =>
    let s1 := criticUpdateSrc s (verdicts cycles).1 (verdicts cycles).2
    let r := shouldContinueSrc s1
    if r.1 = "generate" then runLoopSrc verdicts fuel r.2 (cycles + 1)
    else some (r.2, cycles + 1)

/-! ## Structured report and Critic (critic_node in both variants)

A pytest JSON report is read only through `summary.collected / passed /
failed / errors`, each defaulting to 0 when absent; a missing report
(`report = None`, stored as the empty dict) behaves as the all-zero summary.
The external model's reply enters the critic only through the result of the
parsing code, which is modelled as an explicit outcome value. -/

structure Summary where
  collected : Nat
  passed : Nat
  failed : Nat
  errors : Nat
deriving DecidableEq

/-- Reading `state["report"]` after `execution_node` stored `report or {}`:
a `None` report yields all-zero counts via the chained `.get(..., 0)`. -/
def summaryOrZero : Option Summary → Summary
  | none => ⟨0, 0, 0, 0⟩
  | some s => s

/-- Outcome of `json.loads(response.content)` in src/src/graph/nodes.py
critic_node: the decode can fail (`json.JSONDecodeError`), succeed with a
non-object JSON value (on which the subsequent `result.get` raises
`AttributeError`, uncaught), or succeed with an object whose `status` and
`feedback` keys may each be absent. -/
inductive LlmJson where
  | decodeError
  | nonObject
  | obj (status : Option String) (feedback : Option String)
deriving DecidableEq

/-- Result of one critic step: the stored status and feedback, and whether
the external text-generation service was invoked on the way. -/
structure CriticResult where
  status : String
  feedback : String
  calledLLM : Bool
deriving DecidableEq

/-- `critic_node` from src/src/graph/nodes.py (lines 197-258), as a function
of the current report and of the parse outcome of the model's reply.  The
fast path (`collected > 0 and passed == collected`) returns success without
any external call.  `none` models an exception escaping the critic (the
`AttributeError` raised by `result.get` on non-object JSON). -/
def critic_node_src (report : Option Summary) (resp : LlmJson) : Option CriticResult :=
  let s := summaryOrZero report
  if 0 < s.collected ∧ s.passed = s.collected then
    some ⟨"success", "All tests passed successfully.", false⟩
  else
    match resp with
    | LlmJson.decodeError => some ⟨"needs_fix", "Critic response was not valid JSON.", true⟩
    | LlmJson.nonObject => none
    | LlmJson.obj st fb =>
      some ⟨st.getD ("needs_fix"), fb.getD ("No feedback provided."), true⟩

/-- Outcome of the reply-parsing block in Version2.py critic_node (lines
298-305): the brace-matching regex may find nothing, `json.loads` may raise
(bare `except`), or an object with optional `status` / `feedback` / `message`
keys is obtained. -/
inductive V2Parse where
  | noJsonObject
  | loadError
  | obj (status : Option String) (feedback : Option String) (message : Option String)
deriving DecidableEq

/-- `critic_node` from Version2.py (lines 230-318), as a function of the
current report, the expected test count (`num_functions`) and the parse
outcome of the model's reply.  Its fast path checks the collected count
against the expected count and that no test failed or errored. -/
def critic_node_v2 (report : Option Summary) (numFunctions : Nat) (resp : V2Parse) :
    CriticResult :=
  let s := summaryOrZero report
  if s.collected = numFunctions ∧ s.passed = s.collected ∧ s.failed = 0 ∧ s.errors = 0 then
    ⟨"success", "All tests passed successfully", false⟩
  else
    match resp with
    | V2Parse.noJsonObject => ⟨"test_error", "Could not parse critic response", true⟩
    | V2Parse.loadError => ⟨"test_error", "Error parsing critic response", true⟩
    | V2Parse.obj st fb msg =>
      ⟨st.getD ("unknown"), (match fb with | some f => f | none => msg.getD ("")), true⟩

/-! ## Execution adapter (run_pytest_json in the three variants)

The filesystem interaction at the fixed path `.report.json` is made explicit:
`stale` is the artifact left by a previous invocation, `written` is what the
current pytest invocation wrote there (if anything), `timedOut` records a
`subprocess` exception (timeout), and `parseFails` records `json.load`
raising on the artifact that was found.  The report content is abstract. -/

structure ExecResult (α : Type) where
  returncode : Int
  report : Option α
  stdout : String
  stderr : String
deriving DecidableEq

/-- `run_pytest_json` from src/src/graph/nodes.py (lines 22-37): it first
deletes any existing `.report.json`, so the file that is read afterwards is
exactly what this invocation wrote; any exception (timeout, malformed JSON)
is caught and reported as `(-1, None, "", str(e))`. -/
def run_pytest_json_src {α : Type} (stale : Option α) (timedOut : Bool)
    (written : Option α) (parseFails : Bool) (rc : Int) (out err em : String) :
    ExecResult α :=
  let fileAfter : Option α := written
  if timedOut then ⟨-1, none, "", em⟩
  else
    match fileAfter with
    | none => ⟨rc, none, out, err⟩
    | some w => if parseFails then ⟨-1, none, "", em⟩ else ⟨rc, some w, out, err⟩

/-- `run_pytest_json` from Version2.py (lines 102-113): identical exception
handling but no deletion, so when the current invocation writes nothing the
artifact found at the path is the stale one. -/
def run_pytest_json_v2 {α : Type} (stale : Option α) (timedOut : Bool)
    (written : Option α) (parseFails : Bool) (rc : Int) (out err em : String) :
    ExecResult α :=
  let fileAfter : Option α := match written with | some w => some w | none => stale
  if timedOut then ⟨-1, none, "", em⟩
  else
    match fileAfter with
    | none => ⟨rc, none, out, err⟩
    | some w => if parseFails then ⟨-1, none, "", em⟩ else ⟨rc, some w, out, err⟩

/-- `run_pytest_json` from Version1.py (lines 66-78): no deletion either; a
`json.load` failure is caught locally (report becomes `None`); the first
component is `proc.returncode == 0`.  A subprocess timeout propagates to the
caller in this variant, so it is not part of this function's value. -/
def run_pytest_json_v1 {α : Type} (stale : Option α) (written : Option α)
    (parseFails : Bool) (rc : Int) (out err : String) :
    Bool × Option α × String × String :=
  let fileAfter : Option α := match written with | some w => some w | none => stale
  let report : Option α :=
    match fileAfter with
    | none => none
    | some w => if parseFails then none else some w
  (rc == 0, report, out, err)

/-! ## String scanners

Explicit implementations of the concrete regex operations the code performs,
over `List Char`.  Case-insensitive operations lower both sides via
`Char.toLower`, matching `re.IGNORECASE` on the ASCII patterns involved.
Scanners that may skip forward by more than one character take an explicit
fuel argument; a fuel of `length + 1` always suffices since every round
consumes at least one character. -/

/-- Python `str.strip` / regex `\s` whitespace class (ASCII part): space,
tab, newline, carriage return, vertical tab, form feed. -/
def isWS (c : Char) : Bool :=
  c.val == 32 || c.val == 9 || c.val == 10 || c.val == 13 || c.val == 11 || c.val == 12

/-- `str.strip()`: remove whitespace from both ends. -/
def strip (s : List Char) : List Char :=
  ((s.dropWhile isWS).reverse.dropWhile isWS).reverse

/-- Case-sensitive prefix test. -/
def isPrefixCS : List Char → List Char → Bool
  | [], _ => true
  | _ :: _, [] => false
  | a :: as, b :: bs => a == b && isPrefixCS as bs

/-- Case-insensitive prefix test. -/
def isPrefixCI : List Char → List Char → Bool
  | [], _ => true
  | _ :: _, [] => false
  | a :: as, b :: bs => a.toLower == b.toLower && isPrefixCI as bs

/-- First case-insensitive occurrence of `needle` in the haystack: returns
the part before the match and the part after it. -/
def findSubCI (needle : List Char) : List Char → Option (List Char × List Char)
  | [] => if needle.isEmpty then some ([], []) else none
  | c :: rest =>
    if isPrefixCI needle (c :: rest) then some ([], (c :: rest).drop needle.length)
    else
      match findSubCI needle rest with
      | some (pre, post) => some (c :: pre, post)
      | none => none

/-- First case-sensitive occurrence of `needle` in the haystack (Python's
`in` / `str.find`), same interface as `findSubCI`. -/
def findSubCS (needle : List Char) : List Char → Option (List Char × List Char)
  | [] => if needle.isEmpty then some ([], []) else none
  | c :: rest =>
    if isPrefixCS needle (c :: rest) then some ([], (c :: rest).drop needle.length)
    else
      match findSubCS needle rest with
      | some (pre, post) => some (c :: pre, post)
      | none => none

/-- Python `needle in hay` (case-sensitive substring test). -/
def containsSub (needle hay : List Char) : Bool :=
  (findSubCS needle hay).isSome

/-- Fuelled worker for `re.sub(r"<think>.*?</think>", "", raw, DOTALL |
IGNORECASE)`: repeatedly delete from the leftmost `<think>` that has a
subsequent `</think>` through that closer; a lone opener without a closer
matches nothing. -/
def removeThinkF : Nat → List Char → List Char
  | 0, s => s
  | f + 1, s =>
    match findSubCI ("<think>".toList) s with
    | none => s
    | some (pre, post) =>
      match findSubCI ("</think>".toList) post with
      | none => s
      | some (_, post2) => pre ++ removeThinkF f post2

/-- `re.sub(r"<think>.*?</think>", "", raw)` with DOTALL and IGNORECASE. -/
def removeThink (s : List Char) : List Char :=
  removeThinkF (s.length + 1) s

/-- Fuelled worker deleting every ```` ```python ```` (case-insensitive) or
```` ``` ```` token: the combined effect of the two `re.sub` calls
`re.sub(r"```(?:python)?", "", raw, IGNORECASE)` then `re.sub(r"```", "",
raw)` in parser.py / Version2.py extract_code. -/
def removeFencesF : Nat → List Char → List Char
  | 0, s => s
  | _ + 1, [] => []
  | f + 1, c :: rest =>
    if isPrefixCI ("```python".toList) (c :: rest) then removeFencesF f (rest.drop 8)
    else if isPrefixCS ("```".toList) (c :: rest) then removeFencesF f (rest.drop 2)
    else c :: removeFencesF f rest

/-- Delete all fence markers (see `removeFencesF`). -/
def removeFences (s : List Char) : List Char :=
  removeFencesF (s.length + 1) s

/-- `re.search(r"<PYTEST_FILE>([\s\S]*?)</PYTEST_FILE>", raw, IGNORECASE)`:
the region between the first opening tag and the first closing tag after it,
or `none` when the pair is not present. -/
def findMarkerRegion (s : List Char) : Option (List Char) :=
  match findSubCI ("<PYTEST_FILE>".toList) s with
  | none => none
  | some (_, post) =>
    match findSubCI ("</PYTEST_FILE>".toList) post with
    | none => none
    | some (grp, _) => some grp

/-- Fuelled worker for `re.findall(r"```(?:python)?\s*([\s\S]*?)```", raw,
IGNORECASE)`: each match opens at a ```` ``` ````, greedily consumes an
optional `python` and a maximal whitespace run, and its group runs lazily up
to the next ```` ``` ````; matches are non-overlapping, left to right. -/
def findBlocksF : Nat → List Char → List (List Char)
  | 0, _ => []
  | f + 1, s =>
    match findSubCI ("```".toList) s with
    | none => []
    | some (_, afterOpen) =>
      let afterLang := if isPrefixCI ("python".toList) afterOpen then afterOpen.drop 6 else afterOpen
      let afterWS := afterLang.dropWhile isWS
      match findSubCI ("```".toList) afterWS with
      | none => []
      | some (grp, rest) => grp :: findBlocksF f rest

/-- All fenced code blocks of the response, in order (see `findBlocksF`). -/
def findBlocks (s : List Char) : List (List Char) :=
  findBlocksF (s.length + 1) s

/-- Python `max(blocks, key=len)`: the first block of maximal length. -/
def maxByLen : List (List Char) → Option (List Char)
  | [] => none
  | b :: bs => some (bs.foldl (fun acc x => if acc.length < x.length then x else acc) b)

/-! ## extract_code (Code Synthesizer payload extraction) -/

/-- `extract_code` from src/src/utils/parser.py (lines 77-91), identical in
Version2.py (lines 86-100): guard on the empty response, strip reasoning
markup, delete all fence markers, strip edge whitespace, then return the
delimited marker region if present and otherwise the whole cleaned text. -/
def extract_code_src (raw : List Char) : List Char :=
  if raw.isEmpty then []
  else
    let r := strip (removeFences (removeThink raw))
    match findMarkerRegion r with
    | some g => strip g
    | none => strip r

/-- `extract_code` from Version1.py (lines 41-49): the delimited marker
region if present; else the longest fenced code block if any; else the raw
response stripped of edge whitespace. -/
def extract_code_v1 (raw : List Char) : List Char :=
  match findMarkerRegion raw with
  | some g => strip g
  | none =>
    match maxByLen (findBlocks raw) with
    | some b => strip b
    | none => strip raw

/-- Modelled from the spec: the claimed extraction order — the delimited
marker region when present; otherwise the longest fenced code block;
otherwise the full response verbatim after stripping the reasoning
side-channel markup.  Used only to compare the implementations against the
specified behaviour. -/
def extract_spec (raw : List Char) : List Char :=
  match findMarkerRegion raw with
  | some g => strip g
  | none =>
    match maxByLen (findBlocks raw) with
    | some b => strip b
    | none => strip (removeThink raw)

/-! ## Framework detection and function detector (src/src variant) -/

/-- `detect_framework` from src/src/utils/parser.py (lines 65-75):
lowercase-substring detection of the import signatures, first match wins,
default generic. -/
def detect_framework (userCode : List Char) : String :=
  let lower := userCode.map Char.toLower
  if containsSub ("from flask import".toList) lower || containsSub ("import flask".toList) lower then
    "flask"
  else if containsSub ("from django".toList) lower || containsSub ("import django".toList) lower then
    "django"
  else if containsSub ("from fastapi import".toList) lower || containsSub ("import fastapi".toList) lower then
    "fastapi"
  else "generic"

/-- Control-relevant output of the function detector node. -/
structure DetectorResult where
  detected_functions : List String
  num_functions : Nat
  framework : String
deriving DecidableEq

/-- `function_detector_node` from src/src/graph/nodes.py (lines 41-66), as a
function of the two extraction results (the README heuristic battery and the
AST walk over the companion source, both computed before the branch) and of
the companion source text used for framework detection. -/
def function_detector_node (functionsFromReadme functionsFromCode : List String)
    (userCode : List Char) : DetectorResult :=
  let fw := detect_framework userCode
  if functionsFromReadme ≠ [] then
    ⟨functionsFromReadme, functionsFromReadme.length, fw⟩
  else if functionsFromCode ≠ [] then
    ⟨functionsFromCode, functionsFromCode.length, fw⟩
  else ⟨[], 0, fw⟩

/-! ## README name extraction: dedup / exclusion / cap

The eight regex patterns of `extract_functions_from_readme` only produce the
candidate list that is fed to the dedup loop; the claimed invariants are
properties of that loop and of the final truncation, so the battery's output
is taken as an input here and the loop and cap are embedded exactly. -/

/-- The stopword list of src/src/utils/parser.py line 46 (identical in
Version2.py line 80). -/
def stopwords : List String :=
  ["module", "key", "class", "object", "property", "input", "output", "returns", "return"]

/-- Python `func.lower()` (ASCII). -/
def toLowerStr (s : String) : String :=
  String.mk (s.data.map Char.toLower)

/-- The filter applied to each candidate: not private-prefixed, lowercase
form not a stopword. -/
def allowedName (f : String) : Prop :=
  f.startsWith ("_") = false ∧ toLowerStr f ∉ stopwords

instance (f : String) : Decidable (allowedName f) := by
  unfold allowedName; infer_instance

/-- The dedup loop of `extract_functions_from_readme` (lines 42-48 of
src/src/utils/parser.py, lines 76-82 of Version2.py): keep a candidate iff
it was not seen before and passes the exclusion filter, tracking seen names. -/
def dedupFilterAux (seen : List String) : List String → List String
  | [] => []
  | f :: fs =>
    if f ∉ seen ∧ allowedName f then f :: dedupFilterAux (f :: seen) fs
    else dedupFilterAux seen fs

/-- Final list of `extract_functions_from_readme` in src/src/utils/parser.py
as a function of the regex battery's candidate list: dedup then `[:20]`. -/
def extract_from_readme_post (candidates : List String) : List String :=
  (dedupFilterAux [] candidates).take 20

/-- Final list of `extract_functions_from_readme` in Version2.py as a
function of the candidate list: dedup then `[:15]`. -/
def extract_from_readme_post_v2 (candidates : List String) : List String :=
  (dedupFilterAux [] candidates).take 15

/-! ## Combiner (extract_user_functions and combiner_node)

Source texts are modelled at the line level: a Python string with newlines
corresponds to its `split('\n')` line list, so f-string splicing is list
concatenation.  The AST is modelled as the parse result: the ordered
top-level declarations, each carrying its name and its source-line slice
(`user_code.split('\n')[node.lineno-1:node.end_lineno]`); `none` models
`ast.parse` raising.  The model covers modules whose functions contain no
nested function definitions (`ast.walk` would visit those too). -/

inductive PyItem where
  | funcDef (name : String) (text : List String)
  | classDef (name : String) (methods : List (String × List String)) (text : List String)

/-- One node yielded by `ast.walk` that the extraction loop inspects. -/
inductive WalkNode where
  | func (name : String) (text : List String)
  | cls (name : String) (methodNames : List String) (text : List String)

/-- The breadth-first `ast.walk` order restricted to the inspected nodes:
all top-level declarations in source order, then the methods of each class
in source order. -/
def walkSeq (items : List PyItem) : List WalkNode :=
  items.map (fun it =>
    match it with
    | PyItem.funcDef n t => WalkNode.func n t
    | PyItem.classDef n ms t => WalkNode.cls n (ms.map Prod.fst) t)
  ++ items.flatMap (fun it =>
    match it with
    | PyItem.funcDef _ _ => []
    | PyItem.classDef _ ms _ => ms.map (fun m => WalkNode.func m.1 m.2))

/-- The walk loop of `extract_user_functions` (lines 100-119 of
src/src/utils/parser.py): collect the line slice of every function whose
name is detected and unseen, and of every class with a detected direct
method, sharing one seen-name set. -/
def extractWalk (detected : List String) : List WalkNode → List String → List (List String)
  | [], _ => []
  | WalkNode.func n t :: rest, seen =>
    if n ∈ detected ∧ n ∉ seen then t :: extractWalk detected rest (n :: seen)
    else extractWalk detected rest seen
  | WalkNode.cls n ms t :: rest, seen =>
    if (∃ m ∈ ms, m ∈ detected) ∧ n ∉ seen then t :: extractWalk detected rest (n :: seen)
    else extractWalk detected rest seen

/-- `'\n\n'.join(extracted_items)` at the line level. -/
def joinBlank : List (List String) → List String
  | [] => []
  | [t] => t
  | t :: ts => t ++ [""] ++ joinBlank ts

/-- `line.strip().startswith('import ') or line.strip().startswith('from ')`
(the essential-import scan of lines 125-128 of src/src/utils/parser.py). -/
def isImportStart (l : List Char) : Bool :=
  isPrefixCS ("import ".toList) (strip l) || isPrefixCS ("from ".toList) (strip l)

/-- `any(pkg in line for pkg in ['requests', 'urllib3', 'chardet', 'idna'])`. -/
def hasBadPkg (l : List Char) : Bool :=
  containsSub ("requests".toList) l || containsSub ("urllib3".toList) l
    || containsSub ("chardet".toList) l || containsSub ("idna".toList) l

/-- `extract_user_functions` from src/src/utils/parser.py (lines 93-137):
on parse failure return the user source unchanged; otherwise collect the
detected declarations, and if any were found prepend the essential import
lines of the original source, else fall back to the whole source. -/
def extract_user_functions (userLines : List String) (parsed : Option (List PyItem))
    (detected : List String) : List String :=
  match parsed with
  | none => userLines
  | some items =>
    let extracted := extractWalk detected (walkSeq items) []
    if extracted.isEmpty then userLines
    else
      let imports := userLines.filter (fun l => isImportStart l.toList && !hasBadPkg l.toList)
      if imports.isEmpty then joinBlank extracted
      else imports ++ [""] ++ joinBlank extracted

/-- Matches `re.sub(r'^import\s+.*$', '', ..., re.MULTILINE)` on one line:
the line starts with `import` followed by a whitespace character. -/
def matchImportOnly (l : List Char) : Bool :=
  isPrefixCS ("import".toList) l
    && (match l.drop 6 with | c :: _ => isWS c | [] => false)

/-- Helper for `matchFromImportLine`: some occurrence of `import` followed
by a whitespace character. -/
def hasImportWS : List Char → Bool
  | [] => false
  | c :: rest =>
    (isPrefixCS ("import".toList) (c :: rest)
      && (match (c :: rest).drop 6 with | d :: _ => isWS d | [] => false))
    || hasImportWS rest

/-- Matches `re.sub(r'^from\s+.*import\s+.*$', '', ..., re.MULTILINE)` on one
line: starts with `from` plus a whitespace character, and after that prefix
some occurrence of `import` is followed by a whitespace character. -/
def matchFromImportLine (l : List Char) : Bool :=
  isPrefixCS ("from".toList) l
    && (match l.drop 4 with | c :: _ => isWS c | [] => false)
    && hasImportWS (l.drop 5)

/-- The two `re.sub(..., '', ..., re.MULTILINE)` calls of `combiner_node`
(lines 134-135 of src/src/graph/nodes.py): a matched line is replaced by the
empty line (the newline itself is not part of the match). -/
def stripTopImports (lines : List String) : List String :=
  lines.map (fun l => if matchImportOnly l.toList || matchFromImportLine l.toList then "" else l)

/-- The fixed flask bootstrap header lines of `combiner_node`. -/
def flaskHeader : List String :=
  ["import pytest", "from flask import Flask, request", "", "app = Flask(__name__)"]

/-- The fixed flask client-fixture lines of `combiner_node`. -/
def flaskFixture : List String :=
  ["", "@pytest.fixture", "def client():", "    app.config[\x27TESTING\x27] = True",
   "    with app.test_client() as client:", "        yield client", ""]

/-- `combiner_node` from src/src/graph/nodes.py (lines 126-165): filter the
user source down to the detected declarations, blank out top-level import
lines, then splice with the generated test code — wrapped in the flask
bootstrap for the flask framework tag, plain concatenation otherwise. -/
def combiner_node (userLines : List String) (parsed : Option (List PyItem))
    (detected : List String) (framework : String) (testLines : List String) : List String :=
  let filtered := stripTopImports (extract_user_functions userLines parsed detected)
  if framework = "flask" then
    [""] ++ flaskHeader ++ filtered ++ flaskFixture ++ testLines ++ [""]
  else
    [""] ++ filtered ++ [""] ++ testLines ++ [""]

/-! ## Loop controller lemmas -/

/-- Unfolding one cycle of the loop. -/
lemma runLoopSrc_succ (verdicts : Nat → String × String) (fuel : Nat) (s : LoopState)
    (cycles : Nat) :
    runLoopSrc verdicts (fuel + 1) s cycles =
      if (shouldContinueSrc (criticUpdateSrc s (verdicts cycles).1 (verdicts cycles).2)).1
          = "generate" then
        runLoopSrc verdicts fuel
          (shouldContinueSrc (criticUpdateSrc s (verdicts cycles).1 (verdicts cycles).2)).2
          (cycles + 1)
      else
        some ((shouldContinueSrc (criticUpdateSrc s (verdicts cycles).1 (verdicts cycles).2)).2,
          cycles + 1) := rfl

/-- The critic tail on a needs_fix verdict: status and feedback stored,
iteration incremented. -/
lemma criticUpdateSrc_needs_fix (s : LoopState) (fb : String) :
    criticUpdateSrc s ("needs_fix") fb =
      ⟨s.iteration + 1, s.maxIterations, "needs_fix", fb⟩ := by
  unfold criticUpdateSrc
  simp

/-- The conditional edge on a needs_fix status: loop back unless the counter
exceeds the bound, in which case the status is overwritten. -/
lemma shouldContinueSrc_needs_fix (i m : Nat) (fb : String) :
    shouldContinueSrc ⟨i, m, "needs_fix", fb⟩ =
      if i > m then (("reporter"), ⟨i, m, "max_iterations", fb⟩)
      else (("generate"), ⟨i, m, "needs_fix", fb⟩) := by
  unfold shouldContinueSrc
  simp

/-- Main induction for the budget-termination property: from iteration
`m - j` with `j + 1 ≤ m` and every critic verdict needs_fix, the loop runs
exactly `j + 1` further cycles and stops with status max_iterations at
iteration `m + 1`, for any surplus fuel `e`. -/
lemma runLoopSrc_all_needs_fix (verdicts : Nat → String × String)
    (hv : ∀ k, (verdicts k).1 = "needs_fix") (m : Nat) :
    ∀ (j : Nat), j + 1 ≤ m → ∀ (e c : Nat) (st fb : String),
    ∃ s : LoopState,
      runLoopSrc verdicts (e + j + 1) ⟨m - j, m, st, fb⟩ c = some (s, c + j + 1)
        ∧ s.iteration = m + 1 ∧ s.status = "max_iterations" := by
  intro j
  induction j with
  | zero =>
    intro _ e c st fb
    refine ⟨⟨m + 1, m, "max_iterations", (verdicts c).2⟩, ?_, rfl, rfl⟩
    rw [runLoopSrc_succ, hv c, criticUpdateSrc_needs_fix]
    simp only [Nat.sub_zero]
    rw [shouldContinueSrc_needs_fix, if_pos (by omega : m + 1 > m)]
    simp
  | succ j ih =>
    intro hj e c st fb
    have hin : m - (j + 1) + 1 = m - j := by omega
    rw [runLoopSrc_succ, hv c, criticUpdateSrc_needs_fix]
    simp only [hin]
    rw [shouldContinueSrc_needs_fix, if_neg (by omega : ¬ m - j > m)]
    simp only [if_pos rfl]
    obtain ⟨s, hs, h1, h2⟩ := ih (by omega) e (c + 1) ("needs_fix") ((verdicts c).2)
    have hcy : c + 1 + j + 1 = c + (j + 1) + 1 := by omega
    rw [hcy] at hs
    exact ⟨s, hs, h1, h2⟩

/-- C1: claim as stated fails when the configured budget is 0 — the graph
shape is do-while, so one full generate-execute-critique cycle always runs:
with max_iterations = 0 and a needs_fix verdict the loop performs 1 cycle
(not 0) and stops at iteration 2 (not 1). -/
theorem budget_zero_cex :
    runLoopSrc (fun _ => ("needs_fix", "fix")) 1 ⟨1, 0, "", ""⟩ 0
      = some (⟨2, 0, "max_iterations", "fix"⟩, 1) := by decide

/-- C1 (amended): for every configured max_iterations of at least 1, any run
whose critic verdicts are all needs_fix stops after exactly max_iterations
cycles with status max_iterations at iteration max_iterations + 1; any fuel
of at least max_iterations cycles suffices, so no further generation runs. -/
theorem budget_termination (m fuel : Nat) (hm : 1 ≤ m) (hf : m ≤ fuel)
    (verdicts : Nat → String × String) (hv : ∀ k, (verdicts k).1 = "needs_fix")
    (st0 fb0 : String) :
    ∃ s : LoopState,
      runLoopSrc verdicts fuel ⟨1, m, st0, fb0⟩ 0 = some (s, m)
        ∧ s.iteration = m + 1 ∧ s.status = "max_iterations" := by
  obtain ⟨e, rfl⟩ : ∃ e, fuel = e + (m - 1) + 1 := ⟨fuel - m, by omega⟩
  have h1 : m - (m - 1) = 1 := by omega
  obtain ⟨s, hs, h2, h3⟩ := runLoopSrc_all_needs_fix verdicts hv m (m - 1) (by omega) e 0 st0 fb0
  rw [h1] at hs
  have h0 : 0 + (m - 1) + 1 = m := by omega
  rw [h0] at hs
  exact ⟨s, hs, h2, h3⟩

/-- C1 witness: with max_iterations = 3 and constant needs_fix verdicts the
loop stops after exactly 3 cycles at iteration 4 with status
max_iterations. -/
theorem budget_termination_witness :
    ∃ s : LoopState,
      runLoopSrc (fun _ => ("needs_fix", "fix")) 3 ⟨1, 3, "", ""⟩ 0 = some (s, 3)
        ∧ s.iteration = 4 ∧ s.status = "max_iterations" :=
  budget_termination 3 3 (by decide) (by decide) (fun _ => ("needs_fix", "fix"))
    (fun _ => rfl) ("") ("")

/-- C2: claim as stated fails — with verdict incomplete at iteration 1 of 3
(a retry-class verdict within budget per the claim) the src variant's
conditional edge routes to the reporter, not back to generation. -/
theorem critic_routing_cex :
    (shouldContinueSrc ⟨1, 3, "incomplete", ""⟩).1 = "reporter"
      ∧ (shouldContinueSrc ⟨1, 3, "incomplete", ""⟩).1 ≠ "generate" := by decide

/-- C2 (amended): the src variant loops back exactly on needs_fix within
budget, Version2 exactly on test_error or incomplete within budget; both
route to the reporter otherwise, overwriting the status with max_iterations
when the counter exceeds the bound and no earlier terminal branch (success,
and source_error in Version2) took precedence; the bound check takes
precedence over a retry-class verdict. -/
theorem critic_routing_characterization (s : LoopState) :
    ((shouldContinueSrc s).1
        = (if s.status = "needs_fix" ∧ s.iteration ≤ s.maxIterations
            then "generate" else "reporter")
      ∧ (shouldContinueSrc s).2.status
        = (if s.maxIterations < s.iteration ∧ s.status ≠ "success"
            then "max_iterations" else s.status))
    ∧ ((shouldContinueV2 s).1
        = (if (s.status = "test_error" ∨ s.status = "incomplete")
              ∧ s.iteration ≤ s.maxIterations
            then "generate" else "reporter")
      ∧ (shouldContinueV2 s).2.status
        = (if s.maxIterations < s.iteration ∧ s.status ≠ "success" ∧ s.status ≠ "source_error"
            then "max_iterations" else s.status)) := by
  obtain ⟨i, m, st, fb⟩ := s
  unfold shouldContinueSrc shouldContinueV2
  split_ifs <;> simp_all <;> omega

/-- C3: claim as stated fails on the src variant — its fast path requires a
positive collected count, so with expected = collected = passed = 0 and no
failures or errors (the claimed condition) the critic still invokes the
external service and returns its parsed verdict instead of success. -/
theorem success_fast_path_cex :
    critic_node_src (some ⟨0, 0, 0, 0⟩) (LlmJson.obj (some ("needs_fix")) none)
      = some ⟨"needs_fix", "No feedback provided.", true⟩ := by decide

/-- C3 (amended): when additionally the collected count is positive, both
critics return verdict success with no external call, for every possible
model reply (Version2 fast-paths on exactly the claimed condition; the src
variant on collected > 0 and passed = collected). -/
theorem success_fast_path (s : Summary) (expected : Nat) (resp : LlmJson) (respV2 : V2Parse)
    (h1 : s.collected = expected) (h2 : s.passed = s.collected)
    (h3 : s.failed = 0) (h4 : s.errors = 0) (h5 : 0 < s.collected) :
    critic_node_src (some s) resp = some ⟨"success", "All tests passed successfully.", false⟩
      ∧ critic_node_v2 (some s) expected respV2
        = ⟨"success", "All tests passed successfully", false⟩ := by
  constructor
  · simp only [critic_node_src, summaryOrZero]
    rw [if_pos ⟨h5, h2⟩]
  · simp only [critic_node_v2, summaryOrZero]
    rw [if_pos ⟨h1, h2, h3, h4⟩]

/-- C3 witness: a report with 2 collected, 2 passed, expected count 2. -/
theorem success_fast_path_witness :
    critic_node_src (some ⟨2, 2, 0, 0⟩) LlmJson.decodeError
        = some ⟨"success", "All tests passed successfully.", false⟩
      ∧ critic_node_v2 (some ⟨2, 2, 0, 0⟩) 2 V2Parse.loadError
        = ⟨"success", "All tests passed successfully", false⟩ :=
  success_fast_path ⟨2, 2, 0, 0⟩ 2 LlmJson.decodeError V2Parse.loadError
    rfl rfl rfl rfl (by decide)

/-- C4: claim as stated fails on Version2 — an unparseable critic reply
degrades to verdict test_error there, not to needs_fix. -/
theorem parse_degradation_cex :
    critic_node_v2 none 3 V2Parse.noJsonObject
        = ⟨"test_error", "Could not parse critic response", true⟩
      ∧ ("test_error" : String) ≠ "needs_fix" := by decide

/-- C4 (amended): off the fast path, a JSON-decode failure degrades to
needs_fix with the generic feedback in the src variant, and a missing or
unloadable JSON object degrades to test_error with generic feedback in
Version2, without any exception; but a reply that decodes to non-object JSON
makes the src critic raise (uncaught AttributeError on `result.get`). -/
theorem parse_degradation (report : Option Summary) (n : Nat)
    (hs : ¬ (0 < (summaryOrZero report).collected
          ∧ (summaryOrZero report).passed = (summaryOrZero report).collected))
    (hv : ¬ ((summaryOrZero report).collected = n
          ∧ (summaryOrZero report).passed = (summaryOrZero report).collected
          ∧ (summaryOrZero report).failed = 0 ∧ (summaryOrZero report).errors = 0)) :
    critic_node_src report LlmJson.decodeError
        = some ⟨"needs_fix", "Critic response was not valid JSON.", true⟩
      ∧ critic_node_src report LlmJson.nonObject = none
      ∧ critic_node_v2 report n V2Parse.noJsonObject
        = ⟨"test_error", "Could not parse critic response", true⟩
      ∧ critic_node_v2 report n V2Parse.loadError
        = ⟨"test_error", "Error parsing critic response", true⟩ := by
  refine ⟨?_, ?_, ?_, ?_⟩ <;> simp only [critic_node_src, critic_node_v2]
  · rw [if_neg hs]
  · rw [if_neg hs]
  · rw [if_neg hv]
  · rw [if_neg hv]

/-- C4 witness: a missing report (all-zero summary) with expected count 1. -/
theorem parse_degradation_witness :
    critic_node_src none LlmJson.decodeError
        = some ⟨"needs_fix", "Critic response was not valid JSON.", true⟩
      ∧ critic_node_src none LlmJson.nonObject = none
      ∧ critic_node_v2 none 1 V2Parse.noJsonObject
        = ⟨"test_error", "Could not parse critic response", true⟩
      ∧ critic_node_v2 none 1 V2Parse.loadError
        = ⟨"test_error", "Error parsing critic response", true⟩ :=
  parse_degradation none 1 (by decide) (by decide)

/-- C5: claim as stated fails — with report None the src critic can still
raise: a model reply decoding to non-object JSON makes `result.get` raise an
uncaught AttributeError, so the critic step does not return a verdict. -/
theorem report_loss_cex :
    critic_node_src none LlmJson.nonObject = none := by decide

/-- C5 (amended): with report None and any model reply the code handles (a
decode failure or a JSON object), the src critic returns a well-formed
verdict and behaves exactly as on an all-zero summary; the Version2 critic
does so for every reply. -/
theorem report_loss_resilience (resp : LlmJson) (hresp : resp ≠ LlmJson.nonObject)
    (n : Nat) (respV2 : V2Parse) :
    (critic_node_src none resp).isSome = true
      ∧ critic_node_src none resp = critic_node_src (some ⟨0, 0, 0, 0⟩) resp
      ∧ critic_node_v2 none n respV2 = critic_node_v2 (some ⟨0, 0, 0, 0⟩) n respV2 := by
  refine ⟨?_, rfl, rfl⟩
  cases resp with
  | decodeError => rfl
  | nonObject => exact absurd rfl hresp
  | obj st fb => rfl

/-- C5 witness: report None with a decode-failing reply. -/
theorem report_loss_resilience_witness :
    (critic_node_src none LlmJson.decodeError).isSome = true
      ∧ critic_node_src none LlmJson.decodeError
        = critic_node_src (some ⟨0, 0, 0, 0⟩) LlmJson.decodeError
      ∧ critic_node_v2 none 0 V2Parse.noJsonObject
        = critic_node_v2 (some ⟨0, 0, 0, 0⟩) 0 V2Parse.noJsonObject :=
  report_loss_resilience LlmJson.decodeError (by decide) 0 V2Parse.noJsonObject

/-- C6: claim as stated fails on Version2 — it never deletes the stale
artifact, so an invocation that writes no report (here: stale report 42 on
disk, pytest writes nothing, no timeout) returns the previous run's
report. -/
theorem stale_report_cex :
    run_pytest_json_v2 (some 42) false (none : Option Nat) false 1 ("") ("") ("")
      = ⟨1, some 42, "", ""⟩ := by decide

/-- C6 (amended): only the src variant deletes the stale artifact before
invoking pytest — its result is independent of whatever a previous run left
at the report path; Version2 (and likewise Version1) reads the stale
artifact whenever the current invocation writes none. -/
theorem stale_report_deletion {α : Type} (stale stale2 : Option α) (timedOut : Bool)
    (written : Option α) (parseFails : Bool) (rc : Int) (out err em : String) :
    run_pytest_json_src stale timedOut written parseFails rc out err em
        = run_pytest_json_src stale2 timedOut written parseFails rc out err em
      ∧ run_pytest_json_v2 stale false none false rc out err em
        = ⟨rc, stale, out, err⟩
      ∧ run_pytest_json_v1 stale none false rc out err
        = (rc == 0, stale, out, err) := by
  refine ⟨rfl, ?_, ?_⟩ <;> cases stale <;> rfl

/-! ## Extraction-order lemmas -/

/-- `max(blocks, key=len)` finds nothing exactly on the empty list. -/
lemma maxByLen_eq_none (l : List (List Char)) : maxByLen l = none ↔ l = [] := by
  cases l <;> simp [maxByLen]

/-- C7: claim as stated fails on the parser.py / Version2 extract_code — on
a response with no marker region and two fenced code blocks the claimed
result is the longest block (foo), but that variant only deletes the fence
markers and returns the whole cleaned response. -/
theorem extract_code_cex :
    extract_spec ("a ```python\nfoo\n``` b ```\nzz\n``` c".toList) = ("foo").toList
      ∧ extract_code_src ("a ```python\nfoo\n``` b ```\nzz\n``` c".toList)
        ≠ ("foo").toList := by decide

/-- C7 (amended): Version1's extract_code follows the claimed order on its
first two arms — the delimited marker region when present, else the longest
fenced code block — and diverges only when neither is present, returning the
response stripped of edge whitespace but with reasoning markup retained;
the parser.py / Version2 variant never selects a longest fenced block (see
the counterexample). -/
theorem extract_code_order (raw : List Char) :
    extract_code_v1 raw = extract_spec raw
      ∨ (findMarkerRegion raw = none ∧ findBlocks raw = []
          ∧ extract_code_v1 raw = strip raw) := by
  cases hm : findMarkerRegion raw with
  | some g => exact Or.inl (by simp [extract_code_v1, extract_spec, hm])
  | none =>
    cases hb : maxByLen (findBlocks raw) with
    | some b => exact Or.inl (by simp [extract_code_v1, extract_spec, hm, hb])
    | none =>
      exact Or.inr ⟨rfl, (maxByLen_eq_none _).mp hb, by simp [extract_code_v1, hm, hb]⟩

/-! ## Combiner lemmas -/

/-- A filter whose predicate rejects every element yields the empty list. -/
lemma filter_eq_nil_of_none {α : Type} (p : α → Bool) :
    ∀ l : List α, (∀ x ∈ l, p x = false) → l.filter p = [] := by
  intro l
  induction l with
  | nil => intro _; rfl
  | cons a l ih =>
    intro h
    have ha := h a (by simp)
    rw [List.filter_cons, ha]
    simp only [Bool.false_eq_true, if_false]
    exact ih (fun x hx => h x (by simp [hx]))

/-- Blanking top-level import lines leaves a fragment without such lines
unchanged. -/
lemma stripTopImports_id (lines : List String)
    (h : ∀ l ∈ lines, (matchImportOnly l.toList || matchFromImportLine l.toList) = false) :
    stripTopImports lines = lines := by
  induction lines with
  | nil => rfl
  | cons a l ih =>
    have ha := h a (by simp)
    simp only [stripTopImports, List.map_cons, ha, Bool.false_eq_true, if_false]
    have := ih (fun x hx => h x (by simp [hx]))
    simp only [stripTopImports] at this
    rw [this]

/-- Walk step: a detected, unseen function is extracted. -/
lemma extractWalk_cons_func_pos (detected : List String) (n : String) (t : List String)
    (rest : List WalkNode) (seen : List String) (h1 : n ∈ detected) (h2 : n ∉ seen) :
    extractWalk detected (WalkNode.func n t :: rest) seen
      = t :: extractWalk detected rest (n :: seen) := by
  simp only [extractWalk]
  rw [if_pos ⟨h1, h2⟩]

/-- Walk step: an undetected or already-seen function is skipped. -/
lemma extractWalk_cons_func_neg (detected : List String) (n : String) (t : List String)
    (rest : List WalkNode) (seen : List String) (h : ¬ (n ∈ detected ∧ n ∉ seen)) :
    extractWalk detected (WalkNode.func n t :: rest) seen
      = extractWalk detected rest seen := by
  simp only [extractWalk]
  rw [if_neg h]

/-- C8: for a user module defining functions a, b, c with detected names
a and c, the combined executable (generic framework) is exactly the blank
line, a's full body, a blank, c's full body, a blank, the test code and a
final blank — b's body is absent; and on a parse failure the whole original
source is returned unfiltered.  The side hypotheses pin down the scenario:
the three names are distinct and neither the user source nor the two kept
bodies contain import lines (so the essential-import scan and the import
blanking are inert). -/
theorem combiner_round_trip (a b c : String) (ta tb tc test userLines : List String)
    (hba : b ≠ a) (hbc : b ≠ c) (hca : c ≠ a)
    (hta : ∀ l ∈ ta, (matchImportOnly l.toList || matchFromImportLine l.toList) = false)
    (htc : ∀ l ∈ tc, (matchImportOnly l.toList || matchFromImportLine l.toList) = false)
    (hu : ∀ l ∈ userLines, isImportStart l.toList = false) :
    combiner_node userLines
        (some [PyItem.funcDef a ta, PyItem.funcDef b tb, PyItem.funcDef c tc])
        [a, c] ("generic") test
      = [""] ++ ta ++ [""] ++ tc ++ [""] ++ test ++ [""]
      ∧ extract_user_functions userLines none [a, c] = userLines := by
  have hwalk : walkSeq [PyItem.funcDef a ta, PyItem.funcDef b tb, PyItem.funcDef c tc]
      = [WalkNode.func a ta, WalkNode.func b tb, WalkNode.func c tc] := rfl
  have hex : extractWalk [a, c]
      [WalkNode.func a ta, WalkNode.func b tb, WalkNode.func c tc] [] = [ta, tc] := by
    rw [extractWalk_cons_func_pos _ _ _ _ _ (by simp) (by simp)]
    rw [extractWalk_cons_func_neg _ _ _ _ _ (by simp [hba, hbc])]
    rw [extractWalk_cons_func_pos _ _ _ _ _ (by simp) (by simp [hca])]
    simp only [extractWalk]
  have himp : userLines.filter (fun l => isImportStart l.toList && !hasBadPkg l.toList) = [] :=
    filter_eq_nil_of_none _ _ (fun l hl => by
      have h := hu l hl
      simp only [String.toList] at h
      simp [h])
  have hfun : extract_user_functions userLines
      (some [PyItem.funcDef a ta, PyItem.funcDef b tb, PyItem.funcDef c tc]) [a, c]
      = ta ++ [""] ++ tc := by
    simp only [extract_user_functions, hwalk, hex, himp]
    rfl
  have hall : ∀ l ∈ ta ++ [""] ++ tc,
      (matchImportOnly l.toList || matchFromImportLine l.toList) = false := by
    intro l hl
    simp only [List.mem_append, List.mem_singleton] at hl
    rcases hl with (h | h) | h
    · exact hta l h
    · subst h; decide
    · exact htc l h
  refine ⟨?_, rfl⟩
  simp only [combiner_node, hfun]
  rw [stripTopImports_id _ hall]
  rw [if_neg (by decide : ¬ ("generic" : String) = "flask")]
  simp [List.append_assoc]

/-- C8 witness: the alpha/beta/gamma module with detected names alpha and
gamma. -/
theorem combiner_round_trip_witness :
    combiner_node
        ["def alpha():", "    return 1", "", "def beta():", "    return 2", "",
         "def gamma():", "    return 3"]
        (some [PyItem.funcDef ("alpha") ["def alpha():", "    return 1"],
               PyItem.funcDef ("beta") ["def beta():", "    return 2"],
               PyItem.funcDef ("gamma") ["def gamma():", "    return 3"]])
        ["alpha", "gamma"] ("generic") ["def test_alpha():", "    assert alpha() == 1"]
      = [""] ++ ["def alpha():", "    return 1"] ++ [""] ++ ["def gamma():", "    return 3"]
          ++ [""] ++ ["def test_alpha():", "    assert alpha() == 1"] ++ [""]
      ∧ extract_user_functions
          ["def alpha():", "    return 1", "", "def beta():", "    return 2", "",
           "def gamma():", "    return 3"] none ["alpha", "gamma"]
        = ["def alpha():", "    return 1", "", "def beta():", "    return 2", "",
           "def gamma():", "    return 3"] :=
  combiner_round_trip ("alpha") ("beta") ("gamma")
    ["def alpha():", "    return 1"] ["def beta():", "    return 2"]
    ["def gamma():", "    return 3"] ["def test_alpha():", "    assert alpha() == 1"]
    ["def alpha():", "    return 1", "", "def beta():", "    return 2", "",
     "def gamma():", "    return 3"]
    (by decide) (by decide) (by decide) (by decide) (by decide) (by decide)

/-! ## Dedup-loop lemmas -/

/-- Every name emitted by the dedup loop was unseen on entry and passes the
exclusion filter. -/
lemma dedupFilterAux_mem : ∀ (fs seen : List String) (x : String),
    x ∈ dedupFilterAux seen fs → x ∉ seen ∧ allowedName x := by
  intro fs
  induction fs with
  | nil => intro seen x hx; simp [dedupFilterAux] at hx
  | cons f fs ih =>
    intro seen x hx
    simp only [dedupFilterAux] at hx
    by_cases h : f ∉ seen ∧ allowedName f
    · rw [if_pos h] at hx
      rcases List.mem_cons.mp hx with rfl | hx2
      · exact h
      · have h3 := ih (f :: seen) x hx2
        exact ⟨fun hs => h3.1 (List.mem_cons_of_mem _ hs), h3.2⟩
    · rw [if_neg h] at hx
      exact ih seen x hx


/-- The dedup loop emits no duplicates. -/
lemma dedupFilterAux_nodup : ∀ (fs seen : List String), (dedupFilterAux seen fs).Nodup := by
  intro fs
  induction fs with
  | nil => intro seen; simp [dedupFilterAux]
  | cons f fs ih =>
    intro seen
    simp only [dedupFilterAux]
    by_cases h : f ∉ seen ∧ allowedName f
    · rw [if_pos h, List.nodup_cons]
      refine ⟨fun hf => ?_, ih (f :: seen)⟩
      exact (dedupFilterAux_mem fs (f :: seen) f hf).1 (List.mem_cons_self f seen)
    · rw [if_neg h]
      exact ih seen

/-- C9: in both variants, for every candidate list produced by the regex
battery, the final name list has no duplicates, contains no private-prefixed
name and no stopword (case-insensitively), and its length is capped at the
variant's maximum (20 in src/src/utils/parser.py, 15 in Version2.py). -/
theorem extraction_dedup_cap (cands : List String) :
    ((extract_from_readme_post cands).Nodup
      ∧ (∀ x ∈ extract_from_readme_post cands,
          x.startsWith ("_") = false ∧ toLowerStr x ∉ stopwords)
      ∧ (extract_from_readme_post cands).length ≤ 20)
    ∧ ((extract_from_readme_post_v2 cands).Nodup
      ∧ (∀ x ∈ extract_from_readme_post_v2 cands,
          x.startsWith ("_") = false ∧ toLowerStr x ∉ stopwords)
      ∧ (extract_from_readme_post_v2 cands).length ≤ 15) := by
  have hnodup := dedupFilterAux_nodup cands []
  refine ⟨⟨?_, ?_, ?_⟩, ?_, ?_, ?_⟩
  · exact hnodup.sublist (List.take_sublist _ _)
  · intro x hx
    exact (dedupFilterAux_mem cands [] x (List.take_subset _ _ hx)).2
  · exact List.length_take_le 20 (dedupFilterAux [] cands)
  · exact hnodup.sublist (List.take_sublist _ _)
  · intro x hx
    exact (dedupFilterAux_mem cands [] x (List.take_subset _ _ hx)).2
  · exact List.length_take_le 15 (dedupFilterAux [] cands)

/-- C10: in the framework-aware variant's detector, the detected list is the
README-derived list whenever that list is nonempty, the source-derived list
is used only when the README yields nothing, `num_functions` is the length
of the chosen list, and the framework tag is computed from the companion
source regardless of which list is chosen. -/
theorem readme_shadows_source (rn cn : List String) (code : List Char) :
    function_detector_node rn cn code
      = ⟨if rn = [] then cn else rn, (if rn = [] then cn else rn).length,
          detect_framework code⟩ := by
  by_cases h : rn = []
  · by_cases h2 : cn = []
    · subst h; subst h2; simp [function_detector_node]
    · subst h; simp [function_detector_node, h2]
  · simp [function_detector_node, h]
